import Mathlib

/-!
Verification development for the render-graph execution engine of the
GenomeEngine repository (a Spartan-engine derived deferred renderer).

The definitions below are a shallow embedding of the C++ sources:

* `Vulkan_CommandList.cpp` — the `RHI_CommandList` lifecycle state machine
  (`Begin` / `End` / `Submit` / `Wait` / recording operations), `SetTexture`,
  `EndRenderPass` / `ClearPipelineStateRenderTargets`, and
  `RHI_Texture::SetLayout`.
* `Renderer.cpp` (src/unnamed/part_002) — `OnTick` early-out paths, the
  per-frame constant-buffer recompute, `update_dynamic_buffer`,
  `OnRenderablesAcquire` / `RenderablesSort`.
* `RHI_CommandList.cpp` (src/unnamed/part_006) — `Wait` / `Flush`.

C++ `SP_ASSERT` failures are modelled by `Option`: a method that
assert-fails returns `none`; a method that proceeds returns `some` of its
effect.  Machine integers are modelled as `Nat` with explicit `% 2 ^ 32`
where the source casts to `uint32_t`.  Float-valued data that claims only
compare for equality/order is modelled over `ℚ`; opaque matrix values and
the excluded math library are passed in as parameters.
-/

namespace GenomeEngine
/-! ### Command-list lifecycle state machine (`RHI_CommandList`) -/

/-- `RHI_CommandListState` from RHI_Definition: the lifecycle states of a
command list. -/
inductive CmdState where
  | Idle
  | Recording
  | Ended
  | Submitted
  deriving DecidableEq, Repr

/-- The command-list operations whose state assertions the spec describes.
`draw`, `drawIndexed`, `dispatch`, `beginRenderPass`, `endRenderPass`,
`setTexture`, `setBufferVertex`, `setSampler` are the recording operations;
`begin`, `opEnd`, `submit`, `wait` drive the lifecycle. -/
inductive CmdOp where
  | begin
  | opEnd
  | submit
  | wait
  | draw
  | drawIndexed
  | dispatch
  | beginRenderPass
  | setTexture
  | setBufferVertex
  | setSampler
  deriving DecidableEq, Repr

/-- `RHI_CommandList::Begin`: if the list is still `Submitted` it first waits
(`Wait` moves it to `Idle`), then asserts `Idle` and enters `Recording`. -/
def cmdBegin (s : CmdState) : Option CmdState :=
  let s1 := if s = CmdState.Submitted then CmdState.Idle else s
  if s1 = CmdState.Idle then some CmdState.Recording else none

/-- `RHI_CommandList::End`: asserts `Recording`, moves to `Ended`. -/
def cmdEnd (s : CmdState) : Option CmdState :=
  if s = CmdState.Recording then some CmdState.Ended else none

/-- `RHI_CommandList::Submit`: asserts `Ended`, moves to `Submitted`
(also when the swapchain is not presenting, in which case no GPU work is
queued but the state still becomes `Submitted`). -/
def cmdSubmit (s : CmdState) : Option CmdState :=
  if s = CmdState.Ended then some CmdState.Submitted else none

/-- `RHI_CommandList::Wait` (src/unnamed/part_006): asserts `Submitted`,
waits on the fence and moves to `Idle`. -/
def cmdWait (s : CmdState) : Option CmdState :=
  if s = CmdState.Submitted then some CmdState.Idle else none

/-- Every recording operation (`Draw`, `DrawIndexed`, `Dispatch`,
`BeginRenderPass`, `SetTexture`, `SetBufferVertex`, `SetSampler`, ...)
opens with `SP_ASSERT(m_state == RHI_CommandListState::Recording)` and
leaves the lifecycle state unchanged. -/
def cmdRecordingOp (s : CmdState) : Option CmdState :=
  if s = CmdState.Recording then some CmdState.Recording else none

/-- One step of the command-list state machine: dispatch on the operation. -/
def cmdStep (op : CmdOp) (s : CmdState) : Option CmdState :=
  match op with
  | CmdOp.begin => cmdBegin s
  | CmdOp.opEnd => cmdEnd s
  | CmdOp.submit => cmdSubmit s
  | CmdOp.wait => cmdWait s
  | CmdOp.draw => cmdRecordingOp s
  | CmdOp.drawIndexed => cmdRecordingOp s
  | CmdOp.dispatch => cmdRecordingOp s
  | CmdOp.beginRenderPass => cmdRecordingOp s
  | CmdOp.setTexture => cmdRecordingOp s
  | CmdOp.setBufferVertex => cmdRecordingOp s
  | CmdOp.setSampler => cmdRecordingOp s

/-- Run a sequence of command-list operations; `none` as soon as any
operation assert-fails. -/
def cmdExec (ops : List CmdOp) (s : CmdState) : Option CmdState :=
  match ops with
  | [] => some s
  | op :: rest =>
    match cmdStep op s with
    | none => none
    | some s1 => cmdExec rest s1

/-- Whether an operation is one of the recording operations. -/
def CmdOp.isRecordingOp : CmdOp → Bool
  | CmdOp.begin => false
  | CmdOp.opEnd => true
  | CmdOp.submit => false
  | CmdOp.wait => false
  | _ => true

/-! ### Texture image layouts and `RHI_Texture::SetLayout` -/

/-- `RHI_Image_Layout` (RHI_Definition.h): the GPU-visible access mode of an
image, per mip level. -/
inductive ImageLayout where
  | Undefined
  | General
  | Preinitialized
  | Color_Attachment_Optimal
  | Depth_Stencil_Attachment_Optimal
  | Depth_Stencil_Read_Only_Optimal
  | Shader_Read_Only_Optimal
  | Transfer_Src_Optimal
  | Transfer_Dst_Optimal
  | Present_Src
  deriving DecidableEq, Repr

/-- The subset of `RHI_Texture` state that the claims touch: identity
(`GetObjectId`), per-mip layouts (`m_layout`), mip count, array length,
per-mip-view availability, format/usage predicates and SRV-resource
nullness. -/
structure Texture where
  objId : Nat
  mipCount : Nat
  arrayLength : Nat
  hasPerMipView : Bool
  layouts : List ImageLayout
  isColorFormat : Bool
  isDepthFormat : Bool
  isUavB : Bool
  isSrvB : Bool
  srvNull : Bool
  deriving DecidableEq, Repr

/-- `RHI_Texture::GetLayout(mip)`: reads `m_layout[mip]`. -/
def Texture.getLayout (t : Texture) (mip : Nat) : ImageLayout :=
  t.layouts.getD mip ImageLayout.Undefined

/-- Result of `RHI_Texture::SetLayout`: the texture with updated per-mip
layouts, whether a pipeline barrier was recorded into the command list, and
by how much the profiler's `m_rhi_pipeline_barriers` counter advanced. -/
structure SetLayoutOut where
  tex : Texture
  barrierRecorded : Bool
  profilerBarrierIncr : Nat
  deriving DecidableEq, Repr

/-- `RHI_Texture::SetLayout` (Vulkan_CommandList.cpp related texture code):
an individual mip is addressed by `mip = some m` (C++ `mip != -1`, which
asserts `HasPerMipView`, modelled as `none` on failure); otherwise mip 0 is
the addressed mip.  If the current layout of the addressed mip is
`Undefined` (texture still initialising) the call silently returns; if it
already equals the requested layout the call returns; otherwise a memory
barrier is recorded (when a command list was passed), the profiler counter
advances, and the layouts of the addressed mip range are updated. -/
def setLayout (t : Texture) (newLayout : ImageLayout) (hasCmdList : Bool)
    (mip : Option Nat) (ranged : Bool) : Option SetLayoutOut :=
  let individualMipRequested := mip.isSome
  if individualMipRequested ∧ ¬ t.hasPerMipView then none
  else
    let mipStart := if individualMipRequested then mip.getD 0 else 0
    let mipRange :=
      if ranged then
        (if individualMipRequested then t.mipCount - mipStart else t.mipCount)
      else 1
    let currentLayout := t.layouts.getD mipStart ImageLayout.Undefined
    if currentLayout = ImageLayout.Undefined then
      some ⟨t, false, 0⟩
    else if currentLayout = newLayout then
      some ⟨t, false, 0⟩
    else
      let newLayouts :=
        t.layouts.mapIdx (fun i l =>
          if mipStart ≤ i ∧ i < mipStart + mipRange then newLayout else l)
      some ⟨{ t with layouts := newLayouts }, hasCmdList,
            if hasCmdList then 1 else 0⟩

/-! ### `RHI_CommandList::SetTexture` -/

/-- Result of `RHI_CommandList::SetTexture`: the texture handed to the
descriptor-set layout cache (`none` when the call warned out because no
descriptor layout was set), whether a layout-transition barrier was
recorded, and whether an error was logged. -/
structure SetTextureOut where
  bound : Option Texture
  barrierRecorded : Bool
  errorLogged : Bool
  deriving DecidableEq, Repr

/-- The target-layout computation inside `RHI_CommandList::SetTexture`:
`General` for UAV (storage) bindings, `Shader_Read_Only_Optimal` for sampled
color, `Depth_Stencil_Read_Only_Optimal` for sampled depth; `Undefined`
means no transition is required. -/
def setTextureTargetLayout (tex : Texture) (currentLayout : ImageLayout)
    (uav : Bool) : ImageLayout :=
  if uav then
    (if currentLayout ≠ ImageLayout.General then ImageLayout.General
     else ImageLayout.Undefined)
  else
    let t0 := ImageLayout.Undefined
    let t1 :=
      if tex.isColorFormat ∧ currentLayout ≠ ImageLayout.Shader_Read_Only_Optimal
      then ImageLayout.Shader_Read_Only_Optimal else t0
    let t2 :=
      if tex.isDepthFormat ∧
          currentLayout ≠ ImageLayout.Depth_Stencil_Read_Only_Optimal
      then ImageLayout.Depth_Stencil_Read_Only_Optimal else t1
    t2

/-- The transition step at the end of `RHI_CommandList::SetTexture`, after
the texture reference has been resolved (`t1`) and its current layout read
(`cur`): record the transition outside a render pass, fall back to the
default texture (with an error) inside one. -/
def setTextureTransition (renderPassActive : Bool) (defaultTex t1 : Texture)
    (cur : ImageLayout) (errSoFar : Bool) (mip : Option Nat)
    (ranged uav : Bool) : Option SetTextureOut :=
  let target := setTextureTargetLayout t1 cur uav
  let transitionRequired := target ≠ ImageLayout.Undefined
  if transitionRequired ∧ ¬ renderPassActive then
    match setLayout t1 target true mip ranged with
    | none => none
    | some out => some ⟨some out.tex, out.barrierRecorded, errSoFar⟩
  else if transitionRequired ∧ renderPassActive then
    some ⟨some defaultTex, false, true⟩
  else
    some ⟨some t1, false, errSoFar⟩

/-- The body of `RHI_CommandList::SetTexture` once the null/null-SRV
replacement has produced a concrete texture `t0`: a texture whose current
layout is `Undefined`/`Preinitialized` is replaced by the default texture
with an error logged, then the transition step runs. -/
def setTextureResolved (renderPassActive : Bool) (defaultTex t0 : Texture)
    (mip : Option Nat) (ranged uav : Bool) : Option SetTextureOut :=
  let cur0 := t0.getLayout (if mip.isSome then mip.getD 0 else 0)
  if cur0 = ImageLayout.Undefined ∨ cur0 = ImageLayout.Preinitialized then
    setTextureTransition renderPassActive defaultTex defaultTex
      (defaultTex.getLayout 0) true mip ranged uav
  else
    setTextureTransition renderPassActive defaultTex t0 cur0 false mip
      ranged uav

/-- `RHI_CommandList::SetTexture` (Vulkan_CommandList.cpp 653-738).
Asserts `Recording` and, for a non-null texture, `IsUav`/`IsSrv` as
appropriate (modelled as `none`).  Warns out when no descriptor layout is
set.  A null texture or one with a null SRV resource is replaced by the
renderer default transparent texture, then `setTextureResolved` runs. -/
def setTexture (state : CmdState) (renderPassActive descriptorLayoutSet : Bool)
    (defaultTex : Texture) (texture : Option Texture) (mip : Option Nat)
    (ranged uav : Bool) : Option SetTextureOut :=
  if state ≠ CmdState.Recording then none
  else if (match texture with
           | some t => if uav then ! t.isUavB else ! t.isSrvB
           | none => false) then none
  else if ¬ descriptorLayoutSet then some ⟨none, false, false⟩
  else
    let t0 :=
      match texture with
      | none => defaultTex
      | some t => if t.srvNull then defaultTex else t
    setTextureResolved renderPassActive defaultTex t0 mip ranged uav

/-! ### Render-pass end and deferred clears -/

/-- A four-component color value (floats modelled over `ℚ`). -/
structure Color4 where
  x : ℚ
  y : ℚ
  z : ℚ
  w : ℚ
  deriving DecidableEq, Repr

/-- Per-target color clear policy: the C++ sentinel `rhi_color_load`
versus an actual clear color. -/
inductive ClearColor where
  | load
  | value (c : Color4)
  deriving DecidableEq, Repr

/-- Depth clear policy: the sentinels `rhi_depth_load` and
`rhi_depth_dont_care` versus an actual clear depth. -/
inductive ClearDepth where
  | load
  | dontcare
  | value (d : ℚ)
  deriving DecidableEq, Repr

/-- Stencil clear policy: the sentinels `rhi_stencil_load` and
`rhi_stencil_dont_care` versus an actual clear stencil. -/
inductive ClearStencil where
  | load
  | dontcare
  | value (s : Nat)
  deriving DecidableEq, Repr

/-- `clear_depth != rhi_depth_load && clear_depth != rhi_depth_dont_care`. -/
def ClearDepth.isClear : ClearDepth → Bool
  | ClearDepth.value _ => true
  | _ => false

def ClearDepth.valueOf : ClearDepth → ℚ
  | ClearDepth.value d => d
  | _ => 0

/-- `clear_stencil != rhi_stencil_load && != rhi_stencil_dont_care`. -/
def ClearStencil.isClear : ClearStencil → Bool
  | ClearStencil.value _ => true
  | _ => false

def ClearStencil.valueOf : ClearStencil → Nat
  | ClearStencil.value s => s
  | _ => 0

/-- The part of `RHI_PipelineState` the render-pass claims touch: which
render targets are set, the per-target clear policies and the pass
dimensions.  `clearColor` and `renderTargetColorTextures` are the
fixed-size `rhi_max_render_target_count` arrays, modelled as lists. -/
structure PipelineState where
  renderTargetColorTextures : List Bool
  renderTargetDepthTexture : Bool
  renderTargetSwapchain : Bool
  clearColor : List ClearColor
  clearDepth : ClearDepth
  clearStencil : ClearStencil
  width : Nat
  height : Nat
  deriving DecidableEq, Repr

/-- Modelled from the spec: `RHI_PipelineState::HasClearValues` is not under
src/ (only its caller in `EndRenderPass` is); per the spec a `PipelineState`
"declares clear values" when any render target has a clear policy other
than load. -/
def PipelineState.hasClearValues (ps : PipelineState) : Bool :=
  ps.clearColor.any (fun cc => decide (cc ≠ ClearColor.load)) ||
  ps.clearDepth.isClear || ps.clearStencil.isClear

/-- One `VkClearAttachment` as filled in by
`RHI_CommandList::ClearPipelineStateRenderTargets`. -/
structure ClearAttachment where
  aspectColor : Bool
  aspectDepth : Bool
  aspectStencil : Bool
  colorAttachment : Nat
  clearColorValue : Color4
  clearDepthValue : ℚ
  clearStencilValue : Nat
  deriving DecidableEq, Repr

/-- The `VkClearAttachment` list built by
`RHI_CommandList::ClearPipelineStateRenderTargets` (Vulkan_CommandList.cpp
301-358): one entry per render target whose clear color is not
`rhi_color_load` — each with `colorAttachment = 0` exactly as the source
writes it — plus one depth/stencil entry when depth or stencil is to be
cleared. -/
def clearAttachmentList (ps : PipelineState) : List ClearAttachment :=
  let colorAtts := ps.clearColor.filterMap (fun cc =>
    match cc with
    | ClearColor.load => none
    | ClearColor.value c => some ⟨true, false, false, 0, c, 0, 0⟩)
  let ds :=
    if ps.clearDepth.isClear || ps.clearStencil.isClear then
      [⟨false, ps.clearDepth.isClear, ps.clearStencil.isClear, 0,
        ⟨0, 0, 0, 0⟩, ps.clearDepth.valueOf, ps.clearStencil.valueOf⟩]
    else []
  colorAtts ++ ds

/-- `ClearPipelineStateRenderTargets` asserts `Recording` and an active
render pass, then records its attachment list through
`vkCmdClearAttachments` (recording nothing when the list is empty). -/
def clearPipelineStateRenderTargets (state : CmdState)
    (renderPassActive : Bool) (ps : PipelineState) :
    Option (List ClearAttachment) :=
  if state ≠ CmdState.Recording then none
  else if ¬ renderPassActive then none
  else some (clearAttachmentList ps)

/-- Observable outcome of `RHI_CommandList::EndRenderPass`. -/
structure EndRenderPassOut where
  beganDeferred : Bool
  recordedClears : List ClearAttachment
  endedPass : Bool
  deriving DecidableEq, Repr

/-- `RHI_CommandList::EndRenderPass` (Vulkan_CommandList.cpp 277-299): if
the pipeline state has clear values but no draw call ever ran
(`m_render_pass_active` still false, so `Deferred_BeginRenderPass` never
ran), the deferred render pass is begun and the declared render targets are
cleared manually; then, if a render pass is active, it is ended. -/
def endRenderPass (state : CmdState) (renderPassActive : Bool)
    (ps : PipelineState) : Option EndRenderPassOut :=
  if ps.hasClearValues ∧ ¬ renderPassActive then
    if state ≠ CmdState.Recording then none
    else
      match clearPipelineStateRenderTargets state true ps with
      | none => none
      | some atts => some ⟨true, atts, true⟩
  else
    some ⟨false, [], renderPassActive⟩

/-- The concrete failing input for C4: a pipeline state binding three color
render targets, each with a declared clear color, no depth target, and no
draw call issued during the pass. -/
def psThreeTargets : PipelineState where
  renderTargetColorTextures :=
    [true, true, true, false, false, false, false, false]
  renderTargetDepthTexture := false
  renderTargetSwapchain := false
  clearColor :=
    [ClearColor.value ⟨1, 0, 0, 1⟩, ClearColor.value ⟨0, 1, 0, 1⟩,
     ClearColor.value ⟨0, 0, 1, 1⟩, ClearColor.load, ClearColor.load,
     ClearColor.load, ClearColor.load, ClearColor.load]
  clearDepth := ClearDepth.load
  clearStencil := ClearStencil.load
  width := 1920
  height := 1080

/-! ### Dynamic constant-buffer update (`update_dynamic_buffer`) -/

/-- Modelled from the spec: `Math::Helper::NextPowerOfTwo` lives in the
excluded math library (not under src/); the spec states that the buffer
capacity after growth is the smallest power of two that is at least the
requested value.  For n ≥ 1, `2 ^ Nat.clog 2 n` is exactly that. -/
def nextPowerOfTwo (n : Nat) : Nat := 2 ^ Nat.clog 2 n

/-- The subset of `RHI_ConstantBuffer` state that `update_dynamic_buffer`
touches: offset-slot capacity (`GetOffsetCount`), stride (`GetStride`),
whether the buffer is dynamic (`IsDynamic`) and the current dynamic offset
index (`SetOffsetIndexDynamic`). -/
structure DynBuffer where
  offsetCount : Nat
  stride : Nat
  isDynamic : Bool
  offsetIndexDynamic : Nat
  deriving DecidableEq, Repr

/-- Observable outcome of one `update_dynamic_buffer` call: the returned
boolean, whether the byte-identical early-out was taken, how many
`cmd_list->Flush(true)` calls happened, the buffer state after, the new
offset index, the byte offset the struct was copied to (`none` when the
update was skipped), and the new `buffer_cpu_previous`. -/
structure UpdateOut (T : Type) where
  ok : Bool
  skipped : Bool
  flushes : Nat
  buffer : DynBuffer
  offsetIndex : Nat
  writtenOffset : Option Nat
  prevAfter : T
  deriving DecidableEq, Repr

/-- `update_dynamic_buffer<T>` (src/unnamed/part_002, 440-497): skip when
the CPU staging struct equals the previous frame value bit-for-bit;
otherwise advance the offset index; for a dynamic buffer whose new index
reaches the offset capacity, flush the command list once and re-create the
buffer with `NextPowerOfTwo(offset_index + 1)` offsets; set the dynamic
offset, map and copy the struct at `offset_index * stride` (offset 0 for a
non-dynamic buffer), and remember the value.  (`Map` failure and `Create`
failure are environment faults, modelled as succeeding.) -/
def updateDynamicBuffer {T : Type} [DecidableEq T]
    (bufferCpu bufferCpuPrevious : T) (buf : DynBuffer) (offsetIndex : Nat) :
    UpdateOut T :=
  if bufferCpu = bufferCpuPrevious then
    ⟨true, true, 0, buf, offsetIndex, none, bufferCpuPrevious⟩
  else
    let oi := offsetIndex + 1
    let grow := buf.isDynamic ∧ oi ≥ buf.offsetCount
    let flushes := if grow then 1 else 0
    let buf1 :=
      if grow then { buf with offsetCount := nextPowerOfTwo (oi + 1) }
      else buf
    let buf2 :=
      if buf1.isDynamic then { buf1 with offsetIndexDynamic := oi } else buf1
    let written := if buf2.isDynamic then oi * buf2.stride else 0
    ⟨true, false, flushes, buf2, oi, some written, bufferCpu⟩

/-- `Renderer::Update_Cb_Uber` / `Update_Cb_Frame` (src/unnamed/part_002,
499-535): run `update_dynamic_buffer` and, unless it failed, rebind the
constant buffer to the pipeline (`SetConstantBuffer`); the second component
reports whether the rebind happened. -/
def updateCbBlock {T : Type} [DecidableEq T]
    (bufferCpu bufferCpuPrevious : T) (buf : DynBuffer) (offsetIndex : Nat) :
    UpdateOut T × Bool :=
  let r := updateDynamicBuffer bufferCpu bufferCpuPrevious buf offsetIndex
  (r, r.ok)

/-! ### `Renderer::OnTick` early-out paths -/

/-- The camera state `OnTick`'s early-out paths read. -/
structure CameraRef where
  clearColor : Color4
  deriving DecidableEq, Repr

/-- The renderer state entering a tick, as far as the early-out paths are
concerned: pending flush request, rendering-allowed flag, the swapchain's
present-enabled flag and dimensions, the command-list ring, the active
camera and whether the per-type entity buckets are empty. -/
structure RendererTickState where
  flushRequested : Bool
  renderingAllowed : Bool
  presentEnabled : Bool
  swapWidth : Nat
  swapHeight : Nat
  cmdIndex : Nat
  cmdCount : Nat
  camera : Option CameraRef
  opaqueEmpty : Bool
  transparentEmpty : Bool
  lightsEmpty : Bool
  deriving DecidableEq, Repr

/-- The window state queried during a tick. -/
structure WindowState where
  minimised : Bool
  width : Nat
  height : Nat
  deriving DecidableEq, Repr

/-- The externally observable actions a tick can perform, in order. -/
inductive TickAction where
  | flushAction
  | resizeSwapchain (w h : Nat)
  | resetBufferOffsets
  | beginCmdList
  | clearOutput (c : Color4)
  | updateFrameBuffer
  | passMain
  deriving DecidableEq, Repr

/-- `Renderer::OnTick` (src/unnamed/part_002, 208-345) as a trace of
actions: service a requested flush; return if presentation is disabled or
rendering is not allowed; resize the swapchain to the window size (zero
when minimised) when it differs; select the next command list round-robin,
resetting dynamic-buffer offsets on wrap to index 0; begin the command
list; with no camera clear the output to opaque black and return; with a
camera but empty opaque/transparent/light buckets clear to the camera's
clear color and return; otherwise recompute the frame buffer and run the
pass graph. -/
def onTick (s : RendererTickState) (w : WindowState) : List TickAction :=
  let flushTrace : List TickAction :=
    if s.flushRequested then [TickAction.flushAction] else []
  if ¬ s.presentEnabled ∨ ¬ s.renderingAllowed then flushTrace
  else
    let width := if w.minimised then 0 else w.width
    let height := if w.minimised then 0 else w.height
    let resizeTrace : List TickAction :=
      if ¬ s.presentEnabled ∨ s.swapWidth ≠ width ∨ s.swapHeight ≠ height
      then [TickAction.resizeSwapchain width height] else []
    let cmdIdx := (s.cmdIndex + 1) % s.cmdCount
    let offsetTrace : List TickAction :=
      if cmdIdx = 0 then [TickAction.resetBufferOffsets] else []
    let head := flushTrace ++ resizeTrace ++ offsetTrace ++
      [TickAction.beginCmdList]
    match s.camera with
    | none => head ++ [TickAction.clearOutput ⟨0, 0, 0, 1⟩]
    | some cam =>
      if s.opaqueEmpty ∧ s.transparentEmpty ∧ s.lightsEmpty then
        head ++ [TickAction.clearOutput cam.clearColor]
      else
        head ++ [TickAction.updateFrameBuffer, TickAction.passMain]

/-- `RHI_CommandList::Submit` with its swapchain observability
(Vulkan_CommandList.cpp 171-221): asserts `Ended`; when the bound pipeline
targets a swapchain that is not presenting (e.g. minimised window) the
state still advances to `Submitted` but no GPU work is queued; otherwise
`QueueSubmit` runs.  The second component reports whether GPU work was
queued. -/
def cmdSubmitQueued (s : CmdState) (hasSwapchainTarget presentEnabled : Bool) :
    Option (CmdState × Bool) :=
  if s ≠ CmdState.Ended then none
  else if hasSwapchainTarget ∧ ¬ presentEnabled then
    some (CmdState.Submitted, false)
  else some (CmdState.Submitted, true)

/-! ### Renderables acquisition and depth sorting -/

/-- The entity state the renderables claims touch: identity, whether a
Renderable component exists, and the renderable AABB center (vectors over
ℚ). -/
structure RenderEntity where
  entId : Nat
  hasRenderable : Bool
  aabbCenter : ℚ × ℚ × ℚ
  deriving DecidableEq, Repr

/-- A camera position reference (`m_camera->GetTransform()->GetPosition()`). -/
structure CameraPos where
  position : ℚ × ℚ × ℚ
  deriving DecidableEq, Repr

/-- Squared length of the difference vector (`Vector3::LengthSquared`). -/
def squaredDistance (a b : ℚ × ℚ × ℚ) : ℚ :=
  (a.1 - b.1) * (a.1 - b.1) + (a.2.1 - b.2.1) * (a.2.1 - b.2.1) +
    (a.2.2 - b.2.2) * (a.2.2 - b.2.2)

/-- The `comparison_op` lambda in `Renderer::RenderablesSort`: squared
distance of the renderable AABB center to the camera position, `0` for an
entity without a Renderable. -/
def comparisonOp (cam : CameraPos) (e : RenderEntity) : ℚ :=
  if e.hasRenderable then squaredDistance e.aabbCenter cam.position else 0

/-- `Renderer::RenderablesSort` (src/unnamed/part_002, 667-686): returns
the bucket unchanged when there is no camera or the bucket has at most two
entries (`renderables->size() <= 2`); otherwise `std::sort`s it ascending
by `comparison_op` (modelled with `mergeSort`, whose output is sorted by
the same comparator). -/
def renderablesSort (cam : Option CameraPos) (l : List RenderEntity) :
    List RenderEntity :=
  match cam with
  | none => l
  | some c =>
    if l.length ≤ 2 then l
    else l.mergeSort
      (fun a b => decide (comparisonOp c a ≤ comparisonOp c b))

/-- One scene entity as seen by `Renderer::OnRenderablesAcquire`: activity
flag, material data deciding transparency, and which components it has. -/
structure SceneEntity where
  ent : RenderEntity
  active : Bool
  hasMaterial : Bool
  albedoAlpha : ℚ
  isLight : Bool
  isCamera : Bool
  cameraPos : ℚ × ℚ × ℚ
  deriving DecidableEq, Repr

/-- The per-frame entity buckets. -/
structure Buckets where
  opaqueBucket : List RenderEntity
  transparentBucket : List RenderEntity
  lightBucket : List RenderEntity
  camera : Option CameraPos
  deriving DecidableEq, Repr

/-- The classification loop of `Renderer::OnRenderablesAcquire`
(src/unnamed/part_002, 608-653): skip inactive entities; a renderable is
transparent when its material albedo alpha is below 1; lights and cameras
are collected separately, the camera reference being the last camera
found. -/
def collectBuckets (entities : List SceneEntity) : Buckets :=
  entities.foldl (fun acc e =>
    if ¬ e.active then acc
    else
      let acc1 :=
        if e.ent.hasRenderable then
          if e.hasMaterial ∧ e.albedoAlpha < 1 then
            { acc with transparentBucket := acc.transparentBucket ++ [e.ent] }
          else
            { acc with opaqueBucket := acc.opaqueBucket ++ [e.ent] }
        else acc
      let acc2 :=
        if e.isLight then
          { acc1 with lightBucket := acc1.lightBucket ++ [e.ent] }
        else acc1
      if e.isCamera then { acc2 with camera := some ⟨e.cameraPos⟩ }
      else acc2)
    ⟨[], [], [], none⟩

/-- `Renderer::OnRenderablesAcquire`: classify, then sort the opaque and
the transparent bucket with `RenderablesSort`. -/
def onRenderablesAcquire (entities : List SceneEntity) : Buckets :=
  let b := collectBuckets entities
  { b with
    opaqueBucket := renderablesSort b.camera b.opaqueBucket
    transparentBucket := renderablesSort b.camera b.transparentBucket }

/-- A concrete scene: a camera at the origin and three opaque renderables
at squared distances 25, 1 and 9 (in that acquisition order). -/
def sceneThreeOpaque : List SceneEntity :=
  [⟨⟨30, false, (0, 0, 0)⟩, true, false, 1, false, true, (0, 0, 0)⟩,
   ⟨⟨1, true, (5, 0, 0)⟩, true, true, 1, false, false, (0, 0, 0)⟩,
   ⟨⟨2, true, (1, 0, 0)⟩, true, true, 1, false, false, (0, 0, 0)⟩,
   ⟨⟨3, true, (3, 0, 0)⟩, true, true, 1, false, false, (0, 0, 0)⟩]

/-! ### Per-frame uniform recompute (`Cb_Frame`) -/

/-- The operations of the excluded math library (`Matrix`, `Vector`,
`Utility::Sampling::Halton2D`) that the frame-buffer recompute invokes,
passed in as parameters over an opaque matrix type `M`. -/
structure MathOps (M : Type) where
  matMul : M → M → M
  invert : M → M
  createOrthographicLH : ℚ → ℚ → ℚ → ℚ → M
  createLookAtLH : ℚ × ℚ × ℚ → M
  createTranslation : ℚ × ℚ × ℚ → M
  halton2D : Nat → ℚ × ℚ

/-- The camera fields `Renderer::OnTick`'s frame-buffer update reads. -/
structure CameraData (M : Type) where
  viewMatrix : M
  projectionMatrix : M
  nearPlane : ℚ
  farPlane : ℚ
  aperture : ℚ
  shutterSpeed : ℚ
  iso : ℚ
  position : ℚ × ℚ × ℚ
  direction : ℚ × ℚ × ℚ
  deriving DecidableEq

/-- The remaining per-tick inputs: option toggles, option values, timer
readings, resolutions, mip counts and the directional-light intensity that
`Update_Cb_Frame` writes. -/
structure FrameCtx where
  taaEnabled : Bool
  ssrEnabled : Bool
  upsampleTaaEnabled : Bool
  ssaoEnabled : Bool
  ssaoGiEnabled : Bool
  viewportWidth : ℚ
  viewportHeight : ℚ
  resolutionRender : ℚ × ℚ
  resolutionOutput : ℚ × ℚ
  deltaTime : ℚ
  timeSec : ℚ
  bloomIntensity : ℚ
  sharpenStrength : ℚ
  fog : ℚ
  tonemapping : ℚ
  gamma : ℚ
  shadowResolution : ℚ
  frameMipCount : Nat
  ssrMipCount : Nat
  resolutionEnvironment : ℚ × ℚ
  directionalLightIntensity : ℚ
  deriving DecidableEq

/-- `Cb_Frame` (Renderer_ConstantBuffers.h is not under src/; the field
list is taken from the assignments in `Renderer::OnTick` 268-337 and
`Update_Cb_Frame`).  The claims compare it bit-for-bit, which structure
equality models. -/
structure CbFrame (M : Type) where
  view : M
  projection : M
  projectionInverted : M
  projectionOrtho : M
  viewProjection : M
  viewProjectionInv : M
  viewProjectionOrtho : M
  viewProjectionUnjittered : M
  viewProjectionPrevious : M
  cameraAperture : ℚ
  cameraShutterSpeed : ℚ
  cameraIso : ℚ
  cameraNear : ℚ
  cameraFar : ℚ
  cameraPosition : ℚ × ℚ × ℚ
  cameraDirection : ℚ × ℚ × ℚ
  resolutionOutput : ℚ × ℚ
  resolutionRender : ℚ × ℚ
  taaJitterOffset : ℚ × ℚ
  deltaTime : ℚ
  time : ℚ
  bloomIntensity : ℚ
  sharpenStrength : ℚ
  fog : ℚ
  tonemapping : ℚ
  gamma : ℚ
  shadowResolution : ℚ
  frame : Nat
  frameMipCount : Nat
  ssrMipCount : Nat
  resolutionEnvironment : ℚ × ℚ
  directionalLightIntensity : ℚ
  optionsBits : Nat
  deriving DecidableEq

/-- `Cb_Frame::set_bit(b, mask)` on the `uint32_t` options word. -/
def setBit (b : Bool) (mask bits : Nat) : Nat :=
  if b then bits ||| mask else bits &&& ((2 ^ 32 - 1) ^^^ mask)

/-- The per-tick renderer state the frame-buffer update reads and writes:
the persistent `m_cb_frame_cpu` struct, the cached near/far planes, the
ortho-projection dirty flag, the TAA jitter pair and the frame counter. -/
structure FrameState (M : Type) where
  cbFrame : CbFrame M
  nearPlane : ℚ
  farPlane : ℚ
  updateOrthoProj : Bool
  taaJitter : ℚ × ℚ
  taaJitterPrevious : ℚ × ℚ
  frameNum : Nat
  deriving DecidableEq

/-- The frame-buffer update block of `Renderer::OnTick`
(src/unnamed/part_002, 268-337) plus the directional-light write of
`Update_Cb_Frame`: recompute the orthographic matrices only when the dirty
flag or near/far changed; recompute every other field unconditionally from
the camera, options, timer and frame counter; under TAA derive the jitter
from the Halton sequence at `m_frame_num % 16` and multiply it into the
projection; `view_projection_previous` takes the struct's previous
`view_projection`; `frame` is the frame counter cast to `uint32_t`. -/
def computeFrameBufferUpdate {M : Type} (ops : MathOps M)
    (camera : CameraData M) (ctx : FrameCtx) (st : FrameState M) :
    FrameState M :=
  let orthoDirty := st.updateOrthoProj ∨ st.nearPlane ≠ camera.nearPlane ∨
    st.farPlane ≠ camera.farPlane
  let near1 := if orthoDirty then camera.nearPlane else st.nearPlane
  let far1 := if orthoDirty then camera.farPlane else st.farPlane
  let projOrtho :=
    if orthoDirty then
      ops.createOrthographicLH ctx.viewportWidth ctx.viewportHeight 0
        camera.farPlane
    else st.cbFrame.projectionOrtho
  let viewProjOrtho :=
    if orthoDirty then
      ops.matMul (ops.createLookAtLH (0, 0, -camera.nearPlane))
        (ops.createOrthographicLH ctx.viewportWidth ctx.viewportHeight 0
          camera.farPlane)
    else st.cbFrame.viewProjectionOrtho
  let updateOrtho1 := if orthoDirty then false else st.updateOrthoProj
  let jitterPrev := if ctx.taaEnabled then st.taaJitter else (0, 0)
  let jitter :=
    if ctx.taaEnabled then
      let h := ops.halton2D (st.frameNum % 16)
      (((h.1 * 2 - 1) / ctx.resolutionRender.1) * 1,
       ((h.2 * 2 - 1) / ctx.resolutionRender.2) * 1)
    else (0, 0)
  let projection :=
    if ctx.taaEnabled then
      ops.matMul camera.projectionMatrix
        (ops.createTranslation (jitter.1, jitter.2, 0))
    else camera.projectionMatrix
  let view := camera.viewMatrix
  let viewProjection := ops.matMul view projection
  { cbFrame :=
      { view := view
        projection := projection
        projectionInverted := ops.invert projection
        projectionOrtho := projOrtho
        viewProjection := viewProjection
        viewProjectionInv := ops.invert viewProjection
        viewProjectionOrtho := viewProjOrtho
        viewProjectionUnjittered := ops.matMul view camera.projectionMatrix
        viewProjectionPrevious := st.cbFrame.viewProjection
        cameraAperture := camera.aperture
        cameraShutterSpeed := camera.shutterSpeed
        cameraIso := camera.iso
        cameraNear := camera.nearPlane
        cameraFar := camera.farPlane
        cameraPosition := camera.position
        cameraDirection := camera.direction
        resolutionOutput := ctx.resolutionOutput
        resolutionRender := ctx.resolutionRender
        taaJitterOffset := (jitter.1 - jitterPrev.1, jitter.2 - jitterPrev.2)
        deltaTime := ctx.deltaTime
        time := ctx.timeSec
        bloomIntensity := ctx.bloomIntensity
        sharpenStrength := ctx.sharpenStrength
        fog := ctx.fog
        tonemapping := ctx.tonemapping
        gamma := ctx.gamma
        shadowResolution := ctx.shadowResolution
        frame := st.frameNum % 2 ^ 32
        frameMipCount := ctx.frameMipCount
        ssrMipCount := ctx.ssrMipCount
        resolutionEnvironment := ctx.resolutionEnvironment
        directionalLightIntensity := ctx.directionalLightIntensity
        optionsBits :=
          setBit ctx.ssaoGiEnabled 8
            (setBit ctx.ssaoEnabled 4
              (setBit ctx.upsampleTaaEnabled 2
                (setBit ctx.ssrEnabled 1 st.cbFrame.optionsBits))) }
    nearPlane := near1
    farPlane := far1
    updateOrthoProj := updateOrtho1
    taaJitter := jitter
    taaJitterPrevious := jitterPrev
    frameNum := st.frameNum }

/-- One tick's effect on the frame state: the frame-buffer update followed
by the `m_frame_num++` at the end of `OnTick`. -/
def tickFrame {M : Type} (ops : MathOps M) (camera : CameraData M)
    (ctx : FrameCtx) (st : FrameState M) : FrameState M :=
  let st1 := computeFrameBufferUpdate ops camera ctx st
  { st1 with frameNum := st1.frameNum + 1 }

/-- Trivial math operations over the unit matrix type, used to instantiate
the parametric frame model at a concrete input. -/
def opsUnit : MathOps Unit where
  matMul := fun _ _ => ()
  invert := fun _ => ()
  createOrthographicLH := fun _ _ _ _ => ()
  createLookAtLH := fun _ => ()
  createTranslation := fun _ => ()
  halton2D := fun _ => (0, 0)

/-- A concrete unchanged camera. -/
def camUnit : CameraData Unit where
  viewMatrix := ()
  projectionMatrix := ()
  nearPlane := 1
  farPlane := 1000
  aperture := 0
  shutterSpeed := 0
  iso := 0
  position := (0, 0, 0)
  direction := (0, 0, 1)

/-- Concrete unchanged options/timer inputs (TAA off, timer frozen). -/
def ctxFrozen : FrameCtx where
  taaEnabled := false
  ssrEnabled := false
  upsampleTaaEnabled := false
  ssaoEnabled := false
  ssaoGiEnabled := false
  viewportWidth := 640
  viewportHeight := 480
  resolutionRender := (640, 480)
  resolutionOutput := (640, 480)
  deltaTime := 0
  timeSec := 0
  bloomIntensity := 0
  sharpenStrength := 0
  fog := 0
  tonemapping := 0
  gamma := 2
  shadowResolution := 2048
  frameMipCount := 1
  ssrMipCount := 1
  resolutionEnvironment := (0, 0)
  directionalLightIntensity := 0

/-- A concrete zeroed frame state at frame number 0. -/
def stZero : FrameState Unit where
  cbFrame :=
    { view := (), projection := (), projectionInverted := ()
      projectionOrtho := (), viewProjection := (), viewProjectionInv := ()
      viewProjectionOrtho := (), viewProjectionUnjittered := ()
      viewProjectionPrevious := (), cameraAperture := 0
      cameraShutterSpeed := 0, cameraIso := 0, cameraNear := 0
      cameraFar := 0, cameraPosition := (0, 0, 0)
      cameraDirection := (0, 0, 0), resolutionOutput := (0, 0)
      resolutionRender := (0, 0), taaJitterOffset := (0, 0), deltaTime := 0
      time := 0, bloomIntensity := 0, sharpenStrength := 0, fog := 0
      tonemapping := 0, gamma := 0, shadowResolution := 0, frame := 0
      frameMipCount := 0, ssrMipCount := 0, resolutionEnvironment := (0, 0)
      directionalLightIntensity := 0, optionsBits := 0 }
  nearPlane := 0
  farPlane := 0
  updateOrthoProj := true
  taaJitter := (0, 0)
  taaJitterPrevious := (0, 0)
  frameNum := 0

/-! ### Theorems -/

theorem cmdExec_append (l1 l2 : List CmdOp) (s : CmdState) :
    cmdExec (l1 ++ l2) s =
      (cmdExec l1 s).bind (fun s1 => cmdExec l2 s1) := by
  induction l1 generalizing s with
  | nil => simp [cmdExec]
  | cons op rest ih =>
    simp only [List.cons_append, cmdExec]
    cases cmdStep op s with
    | none => simp
    | some s1 => simp [ih]

theorem cmdSubmit_requires_ended {s s1 : CmdState}
    (h : cmdSubmit s = some s1) : s = CmdState.Ended := by
  by_cases hs : s = CmdState.Ended
  · exact hs
  · simp [cmdSubmit, hs] at h

theorem cmdWait_requires_submitted {s s1 : CmdState}
    (h : cmdWait s = some s1) : s = CmdState.Submitted := by
  by_cases hs : s = CmdState.Submitted
  · exact hs
  · simp [cmdWait, hs] at h

theorem cmdRecordingOp_requires_recording {s s1 : CmdState}
    (h : cmdRecordingOp s = some s1) : s = CmdState.Recording := by
  by_cases hs : s = CmdState.Recording
  · exact hs
  · simp [cmdRecordingOp, hs] at h

/-- C1.  For every sequence of command-list operations: whenever execution
reaches an operation (the prefix before it succeeded) and that operation
itself does not assert-fail, then: a `Submit` was taken from `Ended`, a
`Wait` from `Submitted`, and every recording operation (`End`, `Draw`,
`DrawIndexed`, `Dispatch`, `BeginRenderPass`, `SetTexture`, ...) from
`Recording`.  Conversely, from any other state the call assert-fails
(`cmdStep` is `none`) instead of proceeding. -/
theorem cmdList_state_machine_invariant (prefixOps : List CmdOp) (op : CmdOp)
    (s0 sPre : CmdState) (h : cmdExec prefixOps s0 = some sPre) :
    ((op = CmdOp.submit → ((cmdStep op sPre).isSome ↔ sPre = CmdState.Ended)) ∧
     (op = CmdOp.wait → ((cmdStep op sPre).isSome ↔ sPre = CmdState.Submitted)) ∧
     (op.isRecordingOp = true →
       ((cmdStep op sPre).isSome ↔ sPre = CmdState.Recording))) := by
  clear h
  cases op <;> cases sPre <;> decide

/-- Witness for C1: after the prefix `[Begin, End]` the state is `Ended`;
there `Submit` proceeds, while `Wait` and recording operations (e.g.
`Draw`) assert-fail. -/
theorem cmdList_state_machine_invariant_witness :
    cmdExec [CmdOp.begin, CmdOp.opEnd] CmdState.Idle = some CmdState.Ended ∧
    ((cmdStep CmdOp.submit CmdState.Ended).isSome ↔
      CmdState.Ended = CmdState.Ended) := by
  refine ⟨by decide, ?_⟩
  exact (cmdList_state_machine_invariant [CmdOp.begin, CmdOp.opEnd]
    CmdOp.submit CmdState.Idle CmdState.Ended (by decide)).1 rfl

/-- C7.  Calling `SetLayout` with a layout equal to the texture's current
layout at the addressed mip is a no-op: no memory barrier is recorded, the
profiler's pipeline-barrier counter is not incremented, and the stored
per-mip layouts are unchanged. -/
theorem setLayout_idempotent (t : Texture) (newLayout : ImageLayout)
    (hasCmdList : Bool) (mip : Option Nat) (ranged : Bool)
    (hview : mip.isSome → t.hasPerMipView = true)
    (hcur : t.getLayout (if mip.isSome then mip.getD 0 else 0) = newLayout) :
    setLayout t newLayout hasCmdList mip ranged = some ⟨t, false, 0⟩ := by
  unfold setLayout
  have hv : ¬ (Option.isSome mip = true ∧ ¬ t.hasPerMipView = true) := by
    rintro ⟨h1, h2⟩
    exact h2 (hview h1)
  rw [if_neg hv]
  unfold Texture.getLayout at hcur
  dsimp only
  rw [hcur]
  by_cases hu : newLayout = ImageLayout.Undefined <;> simp [hu]

/-- Witness for C7: a two-mip texture in `Shader_Read_Only_Optimal`; asking
for `Shader_Read_Only_Optimal` again changes nothing. -/
theorem setLayout_idempotent_witness :
    setLayout
      ⟨7, 2, 1, true,
       [ImageLayout.Shader_Read_Only_Optimal,
        ImageLayout.Shader_Read_Only_Optimal],
       true, false, false, true, false⟩
      ImageLayout.Shader_Read_Only_Optimal true (some 1) true =
    some ⟨⟨7, 2, 1, true,
       [ImageLayout.Shader_Read_Only_Optimal,
        ImageLayout.Shader_Read_Only_Optimal],
       true, false, false, true, false⟩, false, 0⟩ :=
  setLayout_idempotent _ _ _ _ _ (fun _ => rfl) (by decide)

/-- C10.  If the addressed mip's current layout is `Undefined` the call
silently returns: no barrier is recorded, the profiler counter does not
advance, and the stored layouts are unchanged — even when a different
target layout was requested. -/
theorem setLayout_undefined_noop (t : Texture) (newLayout : ImageLayout)
    (hasCmdList : Bool) (mip : Option Nat) (ranged : Bool)
    (hview : mip.isSome → t.hasPerMipView = true)
    (hcur : t.getLayout (if mip.isSome then mip.getD 0 else 0) =
      ImageLayout.Undefined) :
    setLayout t newLayout hasCmdList mip ranged = some ⟨t, false, 0⟩ := by
  unfold setLayout
  have hv : ¬ (Option.isSome mip = true ∧ ¬ t.hasPerMipView = true) := by
    rintro ⟨h1, h2⟩
    exact h2 (hview h1)
  rw [if_neg hv]
  unfold Texture.getLayout at hcur
  dsimp only
  rw [hcur]
  simp

/-- Witness for C10: a still-initialising (`Undefined`) texture; a request
to transition it to `General` does not take effect. -/
theorem setLayout_undefined_noop_witness :
    setLayout
      ⟨9, 1, 1, false, [ImageLayout.Undefined], true, false, true, true, false⟩
      ImageLayout.General true none true =
    some ⟨⟨9, 1, 1, false, [ImageLayout.Undefined], true, false, true, true,
       false⟩, false, 0⟩ :=
  setLayout_undefined_noop _ _ _ _ _ (fun h => by simp at h) (by decide)

theorem setLayout_some_of_view (t : Texture) (nl : ImageLayout) (hc : Bool)
    (mip : Option Nat) (ranged : Bool)
    (hview : mip.isSome = true → t.hasPerMipView = true) :
    ∃ out, setLayout t nl hc mip ranged = some out ∧ out.tex.objId = t.objId := by
  unfold setLayout
  have hv : ¬ (Option.isSome mip = true ∧ ¬ t.hasPerMipView = true) := by
    rintro ⟨h1, h2⟩
    exact h2 (hview h1)
  rw [if_neg hv]
  dsimp only
  by_cases h1 : t.layouts.getD (if mip.isSome then mip.getD 0 else 0)
      ImageLayout.Undefined = ImageLayout.Undefined
  · rw [if_pos h1]
    exact ⟨_, rfl, rfl⟩
  · rw [if_neg h1]
    by_cases h2 : t.layouts.getD (if mip.isSome then mip.getD 0 else 0)
        ImageLayout.Undefined = nl
    · rw [if_pos h2]
      exact ⟨_, rfl, rfl⟩
    · rw [if_neg h2]
      exact ⟨_, rfl, rfl⟩

theorem setTextureTransition_default (renderPassActive : Bool)
    (defaultTex : Texture) (cur : ImageLayout) (errSoFar : Bool)
    (mip : Option Nat) (ranged uav : Bool)
    (hview : mip.isSome = true → defaultTex.hasPerMipView = true) :
    ∃ out b,
      setTextureTransition renderPassActive defaultTex defaultTex cur errSoFar
        mip ranged uav = some out ∧
      out.bound = some b ∧ b.objId = defaultTex.objId := by
  unfold setTextureTransition
  dsimp only
  by_cases hc1 : (setTextureTargetLayout defaultTex cur uav ≠
      ImageLayout.Undefined ∧ ¬ renderPassActive = true)
  · rw [if_pos hc1]
    obtain ⟨o, ho, hid⟩ :=
      setLayout_some_of_view defaultTex
        (setTextureTargetLayout defaultTex cur uav) true mip ranged hview
    rw [ho]
    exact ⟨_, _, rfl, rfl, hid⟩
  · rw [if_neg hc1]
    by_cases hc2 : (setTextureTargetLayout defaultTex cur uav ≠
        ImageLayout.Undefined ∧ renderPassActive = true)
    · rw [if_pos hc2]
      exact ⟨_, _, rfl, rfl, rfl⟩
    · rw [if_neg hc2]
      exact ⟨_, _, rfl, rfl, rfl⟩

theorem setTextureTransition_renderPass (defaultTex t1 : Texture)
    (cur : ImageLayout) (errSoFar : Bool) (mip : Option Nat)
    (ranged uav : Bool)
    (herr : errSoFar = true → t1.objId = defaultTex.objId) :
    ∀ out,
      setTextureTransition true defaultTex t1 cur errSoFar mip ranged uav =
        some out →
      out.barrierRecorded = false ∧
      (out.errorLogged = true →
        ∃ b, out.bound = some b ∧ b.objId = defaultTex.objId) := by
  intro out hout
  unfold setTextureTransition at hout
  dsimp only at hout
  rw [if_neg (fun hc => hc.2 rfl)] at hout
  by_cases hreq : setTextureTargetLayout t1 cur uav ≠ ImageLayout.Undefined
  · rw [if_pos (And.intro hreq rfl)] at hout
    cases hout
    exact ⟨rfl, fun _ => ⟨defaultTex, rfl, rfl⟩⟩
  · rw [if_neg (fun hc => hreq hc.1)] at hout
    cases hout
    exact ⟨rfl, fun he => ⟨t1, rfl, herr he⟩⟩

theorem setTextureResolved_default_of (renderPassActive : Bool)
    (defaultTex t0 : Texture) (mip : Option Nat) (ranged uav : Bool)
    (hview : mip.isSome = true → defaultTex.hasPerMipView = true)
    (hcase : t0 = defaultTex ∨
      (t0.getLayout (if mip.isSome then mip.getD 0 else 0) =
         ImageLayout.Undefined ∨
       t0.getLayout (if mip.isSome then mip.getD 0 else 0) =
         ImageLayout.Preinitialized)) :
    ∃ out b,
      setTextureResolved renderPassActive defaultTex t0 mip ranged uav =
        some out ∧
      out.bound = some b ∧ b.objId = defaultTex.objId := by
  unfold setTextureResolved
  dsimp only
  by_cases hinv : (t0.getLayout (if mip.isSome then mip.getD 0 else 0) =
      ImageLayout.Undefined ∨
    t0.getLayout (if mip.isSome then mip.getD 0 else 0) =
      ImageLayout.Preinitialized)
  · rw [if_pos hinv]
    exact setTextureTransition_default renderPassActive defaultTex
      (defaultTex.getLayout 0) true mip ranged uav hview
  · rw [if_neg hinv]
    rcases hcase with h0 | h0
    · subst h0
      exact setTextureTransition_default renderPassActive _ _ false mip
        ranged uav hview
    · exact absurd h0 hinv

theorem setTextureResolved_renderPass (defaultTex t0 : Texture)
    (mip : Option Nat) (ranged uav : Bool) :
    ∀ out,
      setTextureResolved true defaultTex t0 mip ranged uav = some out →
      out.barrierRecorded = false ∧
      (out.errorLogged = true →
        ∃ b, out.bound = some b ∧ b.objId = defaultTex.objId) := by
  intro out hout
  unfold setTextureResolved at hout
  dsimp only at hout
  by_cases hinv : (t0.getLayout (if mip.isSome then mip.getD 0 else 0) =
      ImageLayout.Undefined ∨
    t0.getLayout (if mip.isSome then mip.getD 0 else 0) =
      ImageLayout.Preinitialized)
  · rw [if_pos hinv] at hout
    exact setTextureTransition_renderPass defaultTex defaultTex _ true mip
      ranged uav (fun _ => rfl) out hout
  · rw [if_neg hinv] at hout
    exact setTextureTransition_renderPass defaultTex t0 _ false mip
      ranged uav (fun h => by cases h) out hout

theorem setTextureTransition_required_renderPass (defaultTex t1 : Texture)
    (cur : ImageLayout) (errSoFar : Bool) (mip : Option Nat)
    (ranged uav : Bool)
    (hreq : setTextureTargetLayout t1 cur uav ≠ ImageLayout.Undefined) :
    setTextureTransition true defaultTex t1 cur errSoFar mip ranged uav =
      some ⟨some defaultTex, false, true⟩ := by
  unfold setTextureTransition
  dsimp only
  rw [if_neg (fun hc => hc.2 rfl), if_pos (And.intro hreq rfl)]

theorem setTextureResolved_required_renderPass (defaultTex t0 : Texture)
    (mip : Option Nat) (ranged uav : Bool)
    (hreq : setTextureTargetLayout
      (if (t0.getLayout (if mip.isSome then mip.getD 0 else 0) =
             ImageLayout.Undefined ∨
           t0.getLayout (if mip.isSome then mip.getD 0 else 0) =
             ImageLayout.Preinitialized)
       then defaultTex else t0)
      (if (t0.getLayout (if mip.isSome then mip.getD 0 else 0) =
             ImageLayout.Undefined ∨
           t0.getLayout (if mip.isSome then mip.getD 0 else 0) =
             ImageLayout.Preinitialized)
       then defaultTex.getLayout 0
       else t0.getLayout (if mip.isSome then mip.getD 0 else 0)) uav ≠
      ImageLayout.Undefined) :
    setTextureResolved true defaultTex t0 mip ranged uav =
      some ⟨some defaultTex, false, true⟩ := by
  unfold setTextureResolved
  dsimp only
  by_cases hinv : (t0.getLayout (if mip.isSome then mip.getD 0 else 0) =
      ImageLayout.Undefined ∨
    t0.getLayout (if mip.isSome then mip.getD 0 else 0) =
      ImageLayout.Preinitialized)
  · rw [if_pos hinv]
    rw [if_pos hinv, if_pos hinv] at hreq
    exact setTextureTransition_required_renderPass defaultTex defaultTex _
      true mip ranged uav hreq
  · rw [if_neg hinv]
    rw [if_neg hinv, if_neg hinv] at hreq
    exact setTextureTransition_required_renderPass defaultTex t0 _
      false mip ranged uav hreq

/-- C3.  For every `SetTexture` call on a recording command list (valid
`IsUav`/`IsSrv` usage, descriptor layout set): (1) a null texture reference,
one whose SRV resource is null, or one whose current layout at the
addressed mip is `Undefined`/`Preinitialized`, results in the default
placeholder texture being bound (same object id) rather than a null
binding; (2) while a render pass is active no layout-transition barrier is
ever recorded, any error-logged binding is the default placeholder, and —
the claim's key clause — whenever the binding requires a layout transition
(the required target layout of the resolved texture differs, i.e.
`setTextureTargetLayout` is not `Undefined`) the call logs the error and
binds exactly the default placeholder texture, with no barrier recorded. -/
theorem setTexture_default_fallback (renderPassActive : Bool)
    (defaultTex : Texture) (texture : Option Texture) (mip : Option Nat)
    (ranged uav : Bool)
    (hassert : ∀ t, texture = some t →
      (if uav then t.isUavB else t.isSrvB) = true)
    (hview : mip.isSome = true → defaultTex.hasPerMipView = true) :
    ((texture = none ∨
      (∃ t, texture = some t ∧ t.srvNull = true) ∨
      (∃ t, texture = some t ∧ t.srvNull = false ∧
        (t.getLayout (if mip.isSome then mip.getD 0 else 0) =
           ImageLayout.Undefined ∨
         t.getLayout (if mip.isSome then mip.getD 0 else 0) =
           ImageLayout.Preinitialized))) →
      ∃ out b,
        setTexture CmdState.Recording renderPassActive true defaultTex
          texture mip ranged uav = some out ∧
        out.bound = some b ∧ b.objId = defaultTex.objId) ∧
    (renderPassActive = true →
      (∀ out,
        setTexture CmdState.Recording renderPassActive true defaultTex
          texture mip ranged uav = some out →
        out.barrierRecorded = false ∧
        (out.errorLogged = true →
          ∃ b, out.bound = some b ∧ b.objId = defaultTex.objId)) ∧
      (let t0 :=
        match texture with
        | none => defaultTex
        | some t => if t.srvNull then defaultTex else t
       setTextureTargetLayout
          (if (t0.getLayout (if mip.isSome then mip.getD 0 else 0) =
                 ImageLayout.Undefined ∨
               t0.getLayout (if mip.isSome then mip.getD 0 else 0) =
                 ImageLayout.Preinitialized)
           then defaultTex else t0)
          (if (t0.getLayout (if mip.isSome then mip.getD 0 else 0) =
                 ImageLayout.Undefined ∨
               t0.getLayout (if mip.isSome then mip.getD 0 else 0) =
                 ImageLayout.Preinitialized)
           then defaultTex.getLayout 0
           else t0.getLayout (if mip.isSome then mip.getD 0 else 0)) uav ≠
          ImageLayout.Undefined →
        setTexture CmdState.Recording renderPassActive true defaultTex
          texture mip ranged uav =
          some ⟨some defaultTex, false, true⟩)) := by
  have hsetTexture :
      setTexture CmdState.Recording renderPassActive true defaultTex
        texture mip ranged uav =
      setTextureResolved renderPassActive defaultTex
        (match texture with
         | none => defaultTex
         | some t => if t.srvNull then defaultTex else t) mip ranged uav := by
    cases texture with
    | none =>
      unfold setTexture
      rw [if_neg (fun hne => hne rfl)]
      simp
    | some t =>
      have ht := hassert t rfl
      unfold setTexture
      rw [if_neg (fun hne => hne rfl)]
      cases uav <;> simp_all
  constructor
  · intro hcase
    rw [hsetTexture]
    rcases hcase with h0 | ⟨t, ht, hsrv⟩ | ⟨t, ht, hsrv, hinv⟩
    · subst h0
      exact setTextureResolved_default_of renderPassActive defaultTex
        defaultTex mip ranged uav hview (Or.inl rfl)
    · subst ht
      refine setTextureResolved_default_of renderPassActive defaultTex _
        mip ranged uav hview (Or.inl ?_)
      simp [hsrv]
    · subst ht
      refine setTextureResolved_default_of renderPassActive defaultTex _
        mip ranged uav hview (Or.inr ?_)
      simpa [hsrv] using hinv
  · intro hrp
    subst hrp
    constructor
    · intro out hout
      rw [hsetTexture] at hout
      exact setTextureResolved_renderPass defaultTex _ mip ranged uav out hout
    · intro t0 hreq
      rw [hsetTexture]
      exact setTextureResolved_required_renderPass defaultTex t0 mip ranged
        uav hreq

/-- Witness for C3: a null texture reference bound outside a render pass is
replaced by the default transparent texture (object id 3); and a color
texture currently in `General` layout — which requires a transition to
`Shader_Read_Only_Optimal` — bound while a render pass is active is
replaced by the default texture with the error logged and no barrier
recorded. -/
theorem setTexture_default_fallback_witness :
    (∃ out b,
      setTexture CmdState.Recording false true
        ⟨3, 1, 1, false, [ImageLayout.Shader_Read_Only_Optimal], true, false,
         false, true, false⟩ none none true false = some out ∧
      out.bound = some b ∧ b.objId = 3) ∧
    setTexture CmdState.Recording true true
      ⟨3, 1, 1, false, [ImageLayout.Shader_Read_Only_Optimal], true, false,
       false, true, false⟩
      (some ⟨5, 1, 1, false, [ImageLayout.General], true, false, false,
        true, false⟩) none true false =
      some ⟨some ⟨3, 1, 1, false, [ImageLayout.Shader_Read_Only_Optimal],
        true, false, false, true, false⟩, false, true⟩ := by
  have h1 := (setTexture_default_fallback false
    ⟨3, 1, 1, false, [ImageLayout.Shader_Read_Only_Optimal], true, false,
     false, true, false⟩ none none true false
    (fun t ht => by cases ht) (fun h => by cases h)).1 (Or.inl rfl)
  have h2 := ((setTexture_default_fallback true
    ⟨3, 1, 1, false, [ImageLayout.Shader_Read_Only_Optimal], true, false,
     false, true, false⟩
    (some ⟨5, 1, 1, false, [ImageLayout.General], true, false, false,
      true, false⟩) none true false
    (fun t ht => by cases ht; rfl) (fun h => by cases h)).2 rfl).2
    (by decide)
  exact ⟨h1, h2⟩

/-- C4 (code-bug evidence).  Evaluating the embedded `EndRenderPass` at a
pass that declares clear values for three color render targets and issued
no draw call: the deferred render pass is begun and three clear commands
are recorded — but every recorded `VkClearAttachment` carries
`colorAttachment = 0` (the source hardcodes it), so only color attachment
0 is addressed and attachments 1 and 2 are never cleared, contrary to the
claim that all three targets are left cleared. -/
theorem endRenderPass_attachment_index_bug :
    endRenderPass CmdState.Recording false psThreeTargets =
      some ⟨true,
        [⟨true, false, false, 0, ⟨1, 0, 0, 1⟩, 0, 0⟩,
         ⟨true, false, false, 0, ⟨0, 1, 0, 1⟩, 0, 0⟩,
         ⟨true, false, false, 0, ⟨0, 0, 1, 1⟩, 0, 0⟩], true⟩ := by
  decide

/-- C2.  For every dynamic constant-buffer update: a byte-identical staging
struct skips the update entirely (no flush, no offset advance, no copy);
otherwise the offset index advances by exactly one; if the new index
reaches or exceeds the buffer's offset capacity there is exactly one flush
and the new capacity is the smallest power of two that is at least the
requested `offset_index + 1` (otherwise no flush and the capacity is
unchanged); the struct is copied at `offset_index * stride`; and the buffer
is rebound afterwards. -/
theorem updateDynamicBuffer_contract {T : Type} [DecidableEq T]
    (cpu prev : T) (buf : DynBuffer) (oi : Nat)
    (hdyn : buf.isDynamic = true) :
    (cpu = prev →
      updateCbBlock cpu prev buf oi =
        (⟨true, true, 0, buf, oi, none, prev⟩, true)) ∧
    (cpu ≠ prev →
      (updateCbBlock cpu prev buf oi).1.offsetIndex = oi + 1 ∧
      (updateCbBlock cpu prev buf oi).1.writtenOffset =
        some ((oi + 1) * buf.stride) ∧
      (updateCbBlock cpu prev buf oi).2 = true ∧
      (oi + 1 ≥ buf.offsetCount →
        (updateCbBlock cpu prev buf oi).1.flushes = 1 ∧
        (∃ k, (updateCbBlock cpu prev buf oi).1.buffer.offsetCount = 2 ^ k ∧
          oi + 2 ≤ 2 ^ k ∧ ∀ j, oi + 2 ≤ 2 ^ j → 2 ^ k ≤ 2 ^ j)) ∧
      (oi + 1 < buf.offsetCount →
        (updateCbBlock cpu prev buf oi).1.flushes = 0 ∧
        (updateCbBlock cpu prev buf oi).1.buffer.offsetCount =
          buf.offsetCount)) := by
  constructor
  · intro heq
    simp [updateCbBlock, updateDynamicBuffer, heq]
  · intro hne
    have hgrow_cases := Nat.lt_or_ge (oi + 1) buf.offsetCount
    unfold updateCbBlock updateDynamicBuffer
    rw [if_neg hne]
    dsimp only
    by_cases hg : (buf.isDynamic = true ∧ oi + 1 ≥ buf.offsetCount)
    · rw [if_pos hg, if_pos hg]
      refine ⟨rfl, ?_, rfl, ?_, ?_⟩
      · simp [hdyn]
      · intro hge
        refine ⟨rfl, Nat.clog 2 (oi + 2), ?_, ?_, ?_⟩
        · simp [hdyn, nextPowerOfTwo]
        · exact Nat.le_pow_clog (by norm_num) (oi + 2)
        · intro j hj
          exact Nat.pow_le_pow_right (by norm_num)
            ((Nat.le_pow_iff_clog_le (by norm_num)).mp hj)
      · intro hlt
        exact absurd hg.2 (Nat.not_le.mpr hlt)
    · rw [if_neg hg, if_neg hg]
      have hng : ¬ (oi + 1 ≥ buf.offsetCount) := fun hge => hg ⟨hdyn, hge⟩
      refine ⟨rfl, ?_, rfl, ?_, ?_⟩
      · simp [hdyn]
      · intro hge
        exact absurd hge hng
      · intro _
        simp [hdyn]

/-- Witness for C2: a dynamic buffer with 2 offset slots, stride 16, offset
index currently 1: updating with a changed struct (3 ≠ 7) advances the
index to 2, flushes once (growth) and writes at byte offset 32. -/
theorem updateDynamicBuffer_contract_witness :
    (3 : Nat) ≠ 7 ∧
    (updateCbBlock (3 : Nat) 7 ⟨2, 16, true, 1⟩ 1).1.offsetIndex = 2 ∧
    (updateCbBlock (3 : Nat) 7 ⟨2, 16, true, 1⟩ 1).1.writtenOffset =
      some 32 ∧
    (updateCbBlock (3 : Nat) 7 ⟨2, 16, true, 1⟩ 1).1.flushes = 1 := by
  have h := updateDynamicBuffer_contract (3 : Nat) 7 ⟨2, 16, true, 1⟩ 1 rfl
  have h2 := h.2 (by decide)
  exact ⟨by decide, h2.1, h2.2.1, (h2.2.2.2.1 (by decide)).1⟩

/-- C5.  On a tick with presentation enabled and rendering allowed: with no
active camera the tick's last action is clearing the output target to
opaque black and no pass-graph execution (nor frame-buffer update) occurs;
with a camera but empty opaque, transparent and light buckets the last
action is clearing to the camera's configured clear color and again no
pass runs. -/
theorem onTick_no_camera_or_empty_buckets (s : RendererTickState)
    (w : WindowState) (hp : s.presentEnabled = true)
    (ha : s.renderingAllowed = true) :
    (s.camera = none →
      (onTick s w).getLast? = some (TickAction.clearOutput ⟨0, 0, 0, 1⟩) ∧
      TickAction.passMain ∉ onTick s w ∧
      TickAction.updateFrameBuffer ∉ onTick s w) ∧
    (∀ cam, s.camera = some cam →
      s.opaqueEmpty = true → s.transparentEmpty = true →
      s.lightsEmpty = true →
      (onTick s w).getLast? = some (TickAction.clearOutput cam.clearColor) ∧
      TickAction.passMain ∉ onTick s w ∧
      TickAction.updateFrameBuffer ∉ onTick s w) := by
  unfold onTick
  rw [if_neg (by simp [hp, ha])]
  constructor
  · intro hcam
    rw [hcam]
    dsimp only
    refine ⟨List.getLast?_concat _, ?_, ?_⟩ <;>
    · intro hmem
      simp only [List.mem_append, List.mem_singleton, List.mem_cons] at hmem
      rcases hmem with ((h1 | h1) | h1) | h1 <;>
        first
        | (split at h1 <;> simp_all)
        | simp_all
  · intro cam hcam h1 h2 h3
    rw [hcam]
    dsimp only
    rw [if_pos ⟨h1, h2, h3⟩]
    refine ⟨List.getLast?_concat _, ?_, ?_⟩ <;>
    · intro hmem
      simp only [List.mem_append, List.mem_singleton, List.mem_cons] at hmem
      rcases hmem with ((h4 | h4) | h4) | h4 <;>
        first
        | (split at h4 <;> simp_all)
        | simp_all

/-- Witness for C5: a presentable, rendering-allowed state with no camera
clears to opaque black and runs no pass. -/
theorem onTick_no_camera_or_empty_buckets_witness :
    (onTick ⟨false, true, true, 640, 480, 0, 3, none, true, true, true⟩
        ⟨false, 640, 480⟩).getLast? =
      some (TickAction.clearOutput ⟨0, 0, 0, 1⟩) ∧
    TickAction.passMain ∉
      onTick ⟨false, true, true, 640, 480, 0, 3, none, true, true, true⟩
        ⟨false, 640, 480⟩ := by
  have h := (onTick_no_camera_or_empty_buckets
    ⟨false, true, true, 640, 480, 0, 3, none, true, true, true⟩
    ⟨false, 640, 480⟩ rfl rfl).1 rfl
  exact ⟨h.1, h.2.1⟩

/-- Counterexample to C8: a tick entered with presentation already disabled
(minimised window) and a valid camera with non-empty buckets performs no
per-tick step at all — `OnTick` returns right after the flush check
(src/unnamed/part_002, 219-220), so the frame does not "tick". -/
theorem onTick_minimised_counterexample :
    onTick
      ⟨false, true, false, 0, 0, 0, 3,
       some ⟨⟨0, 0, 0, 1⟩⟩, false, false, false⟩
      ⟨true, 0, 0⟩ = [] := by
  decide

/-- C8 (amended).  A tick that begins with presentation disabled services a
pending flush request and returns before every other per-tick step (no
swapchain resize, no command-list selection, no clear, no pass); the
GPU-submission skip happens instead at the `Submit` stage of a tick during
which presentation got disabled: `Submit` on a non-presenting swapchain
target still advances the command list to `Submitted` without queueing GPU
work. -/
theorem onTick_present_disabled_early_return (s : RendererTickState)
    (w : WindowState) (hp : s.presentEnabled = false) :
    onTick s w =
      (if s.flushRequested then [TickAction.flushAction] else []) ∧
    cmdSubmitQueued CmdState.Ended true false =
      some (CmdState.Submitted, false) := by
  refine ⟨?_, by decide⟩
  unfold onTick
  rw [if_pos (Or.inl (by simp [hp]))]

/-- Witness for C8 (amended): with presentation disabled and a flush
request pending, the tick performs exactly the flush and nothing else. -/
theorem onTick_present_disabled_early_return_witness :
    onTick
      ⟨true, true, false, 640, 480, 1, 3,
       some ⟨⟨1, 1, 1, 1⟩⟩, false, false, false⟩
      ⟨false, 640, 480⟩ =
      (if true then [TickAction.flushAction] else []) ∧
    cmdSubmitQueued CmdState.Ended true false =
      some (CmdState.Submitted, false) :=
  onTick_present_disabled_early_return
    ⟨true, true, false, 640, 480, 1, 3,
     some ⟨⟨1, 1, 1, 1⟩⟩, false, false, false⟩
    ⟨false, 640, 480⟩ rfl

theorem renderablesSort_sorted_of_two_lt (cam : CameraPos)
    (l : List RenderEntity) (hlen : 2 < l.length) :
    List.Sorted (fun a b => comparisonOp cam a ≤ comparisonOp cam b)
      (renderablesSort (some cam) l) := by
  unfold renderablesSort
  dsimp only
  rw [if_neg (Nat.not_le.mpr hlen)]
  have h := @List.sorted_mergeSort RenderEntity
    (fun a b => decide (comparisonOp cam a ≤ comparisonOp cam b))
    (fun a b c h1 h2 => by
      simp only [decide_eq_true_eq] at h1 h2 ⊢
      exact le_trans h1 h2)
    (fun a b => by
      simp only [Bool.or_eq_true, decide_eq_true_eq]
      exact le_total (comparisonOp cam a) (comparisonOp cam b))
    l
  simpa using h

/-- Counterexample to C9: a camera at the origin and a two-entry opaque
bucket in back-to-front order.  `RenderablesSort` returns early for buckets
of size ≤ 2, so the bucket stays `[dist² = 25, dist² = 1]` and the
consecutive-pair ordering the claim states fails. -/
theorem renderablesSort_small_bucket_counterexample :
    (onRenderablesAcquire
      [⟨⟨30, false, (0, 0, 0)⟩, true, false, 1, false, true, (0, 0, 0)⟩,
       ⟨⟨1, true, (5, 0, 0)⟩, true, true, 1, false, false, (0, 0, 0)⟩,
       ⟨⟨2, true, (1, 0, 0)⟩, true, true, 1, false, false, (0, 0, 0)⟩]
      ).camera = some ⟨(0, 0, 0)⟩ ∧
    (onRenderablesAcquire
      [⟨⟨30, false, (0, 0, 0)⟩, true, false, 1, false, true, (0, 0, 0)⟩,
       ⟨⟨1, true, (5, 0, 0)⟩, true, true, 1, false, false, (0, 0, 0)⟩,
       ⟨⟨2, true, (1, 0, 0)⟩, true, true, 1, false, false, (0, 0, 0)⟩]
      ).opaqueBucket =
      [⟨1, true, (5, 0, 0)⟩, ⟨2, true, (1, 0, 0)⟩] ∧
    ¬ (comparisonOp ⟨(0, 0, 0)⟩ ⟨1, true, (5, 0, 0)⟩ ≤
       comparisonOp ⟨(0, 0, 0)⟩ ⟨2, true, (1, 0, 0)⟩) := by
  refine ⟨?_, ?_, ?_⟩ <;>
    norm_num [onRenderablesAcquire, collectBuckets, renderablesSort,
      comparisonOp, squaredDistance, List.foldl]

/-- C9 (amended).  After a renderables-acquire with an active camera, the
opaque and transparent buckets are each depth-sorted front-to-back
(ascending squared camera distance) whenever they hold more than two
entries; a bucket with at most two entries is left in acquisition order
(`RenderablesSort` returns early for `size() <= 2`). -/
theorem onRenderablesAcquire_buckets_sorted (entities : List SceneEntity)
    (cam : CameraPos) (hcam : (collectBuckets entities).camera = some cam) :
    (2 < (collectBuckets entities).opaqueBucket.length →
      List.Sorted (fun a b => comparisonOp cam a ≤ comparisonOp cam b)
        (onRenderablesAcquire entities).opaqueBucket) ∧
    (2 < (collectBuckets entities).transparentBucket.length →
      List.Sorted (fun a b => comparisonOp cam a ≤ comparisonOp cam b)
        (onRenderablesAcquire entities).transparentBucket) ∧
    ((collectBuckets entities).opaqueBucket.length ≤ 2 →
      (onRenderablesAcquire entities).opaqueBucket =
        (collectBuckets entities).opaqueBucket) ∧
    ((collectBuckets entities).transparentBucket.length ≤ 2 →
      (onRenderablesAcquire entities).transparentBucket =
        (collectBuckets entities).transparentBucket) := by
  unfold onRenderablesAcquire
  dsimp only
  rw [hcam]
  refine ⟨?_, ?_, ?_, ?_⟩
  · intro h
    exact renderablesSort_sorted_of_two_lt cam _ h
  · intro h
    exact renderablesSort_sorted_of_two_lt cam _ h
  · intro h
    unfold renderablesSort
    dsimp only
    rw [if_pos h]
  · intro h
    unfold renderablesSort
    dsimp only
    rw [if_pos h]

/-- Witness for C9 (amended): for the concrete three-renderable scene the
camera is found and the acquired opaque bucket comes out depth-sorted. -/
theorem onRenderablesAcquire_buckets_sorted_witness :
    (collectBuckets sceneThreeOpaque).camera = some ⟨(0, 0, 0)⟩ ∧
    2 < (collectBuckets sceneThreeOpaque).opaqueBucket.length ∧
    List.Sorted
      (fun a b =>
        comparisonOp ⟨(0, 0, 0)⟩ a ≤ comparisonOp ⟨(0, 0, 0)⟩ b)
      (onRenderablesAcquire sceneThreeOpaque).opaqueBucket := by
  have hcam : (collectBuckets sceneThreeOpaque).camera = some ⟨(0, 0, 0)⟩ := by
    norm_num [collectBuckets, sceneThreeOpaque, List.foldl]
  have hlen : 2 < (collectBuckets sceneThreeOpaque).opaqueBucket.length := by
    norm_num [collectBuckets, sceneThreeOpaque, List.foldl]
  have h := onRenderablesAcquire_buckets_sorted sceneThreeOpaque
    ⟨(0, 0, 0)⟩ hcam
  exact ⟨hcam, hlen, h.1 hlen⟩

theorem tickFrame_cbFrame_frame {M : Type} (ops : MathOps M)
    (camera : CameraData M) (ctx : FrameCtx) (st : FrameState M) :
    (tickFrame ops camera ctx st).cbFrame.frame = st.frameNum % 2 ^ 32 :=
  rfl

theorem tickFrame_frameNum {M : Type} (ops : MathOps M)
    (camera : CameraData M) (ctx : FrameCtx) (st : FrameState M) :
    (tickFrame ops camera ctx st).frameNum = st.frameNum + 1 :=
  rfl

theorem succ_mod_pow_ne (n : Nat) : (n + 1) % 2 ^ 32 ≠ n % 2 ^ 32 := by
  intro h
  have hmod : Nat.ModEq (2 ^ 32) n (n + 1) :=
    (show (n + 1) % 2 ^ 32 = n % 2 ^ 32 from h).symm
  have hdvd := (Nat.modEq_iff_dvd' (Nat.le_succ n)).mp hmod
  have hone : n.succ - n = 1 := by omega
  rw [hone] at hdvd
  have hle := Nat.le_of_dvd Nat.one_pos hdvd
  norm_num at hle

/-- Counterexample to C6: with a fully unchanged camera, unchanged options
and even a frozen timer, the `Cb_Frame` structs recomputed on two
consecutive ticks are not byte-identical — the `frame` field advances with
the frame counter — and the dynamic-buffer update for the frame block does
not take the byte-equality skip on the second tick. -/
theorem cbFrame_second_tick_counterexample :
    (tickFrame opsUnit camUnit ctxFrozen
        (tickFrame opsUnit camUnit ctxFrozen stZero)).cbFrame ≠
      (tickFrame opsUnit camUnit ctxFrozen stZero).cbFrame ∧
    (updateDynamicBuffer
        (tickFrame opsUnit camUnit ctxFrozen
          (tickFrame opsUnit camUnit ctxFrozen stZero)).cbFrame
        (tickFrame opsUnit camUnit ctxFrozen stZero).cbFrame
        ⟨4, 16, true, 0⟩ 0).skipped = false := by
  have hne :
      (tickFrame opsUnit camUnit ctxFrozen
          (tickFrame opsUnit camUnit ctxFrozen stZero)).cbFrame ≠
        (tickFrame opsUnit camUnit ctxFrozen stZero).cbFrame := by
    intro h
    have hf := congrArg CbFrame.frame h
    rw [tickFrame_cbFrame_frame, tickFrame_cbFrame_frame,
      tickFrame_frameNum] at hf
    exact succ_mod_pow_ne stZero.frameNum hf
  refine ⟨hne, ?_⟩
  unfold updateDynamicBuffer
  rw [if_neg hne]

/-- C6 (amended).  For any math-library instantiation, camera, options and
timer inputs — even completely unchanged between ticks — the `Cb_Frame`
struct recomputed on the second of two consecutive ticks differs from the
first tick's in its `frame` field (the frame counter, cast to `uint32_t`,
advances every tick), so the structs are never byte-identical, the
byte-equality check does not skip, and the second tick performs a
dynamic-buffer upload for the frame block (offset advances by one). -/
theorem cbFrame_consecutive_ticks_differ {M : Type} [DecidableEq M]
    (ops : MathOps M) (camera : CameraData M) (ctx : FrameCtx)
    (st : FrameState M) (buf : DynBuffer) (oi : Nat) :
    (tickFrame ops camera ctx
        (tickFrame ops camera ctx st)).cbFrame.frame ≠
      (tickFrame ops camera ctx st).cbFrame.frame ∧
    (tickFrame ops camera ctx (tickFrame ops camera ctx st)).cbFrame ≠
      (tickFrame ops camera ctx st).cbFrame ∧
    (updateDynamicBuffer
        (tickFrame ops camera ctx (tickFrame ops camera ctx st)).cbFrame
        (tickFrame ops camera ctx st).cbFrame buf oi).skipped = false ∧
    (updateDynamicBuffer
        (tickFrame ops camera ctx (tickFrame ops camera ctx st)).cbFrame
        (tickFrame ops camera ctx st).cbFrame buf oi).offsetIndex =
      oi + 1 := by
  have hf :
      (tickFrame ops camera ctx
          (tickFrame ops camera ctx st)).cbFrame.frame ≠
        (tickFrame ops camera ctx st).cbFrame.frame := by
    rw [tickFrame_cbFrame_frame, tickFrame_cbFrame_frame, tickFrame_frameNum]
    exact succ_mod_pow_ne st.frameNum
  have hne :
      (tickFrame ops camera ctx (tickFrame ops camera ctx st)).cbFrame ≠
        (tickFrame ops camera ctx st).cbFrame :=
    fun h => hf (congrArg CbFrame.frame h)
  refine ⟨hf, hne, ?_, ?_⟩ <;>
  · unfold updateDynamicBuffer
    rw [if_neg hne]

end GenomeEngine
